import Mathlib

/-!
Verification of the zksync build command (`forge zk-build`) pipeline.

The orchestration function `ZkBuildArgs::run` (src/cli/src/cmd/forge/zk_build.rs)
is embedded shallowly: every call it makes to a collaborator (config loading,
manager construction, cache-directory setup, existence check, download, JSON
input construction, compilation) is resolved through an `Env` oracle recording
the collaborator's answer, and the run produces the list of observable events
(calls made, stdout/stderr lines) together with its outcome (a returned
`Result`, a `process::exit`, or a panic).  Components of the repository that
are not part of the visible source (the zksolc manager internals and the
compilation-request builder) are modelled from the specification and are
marked as such in their doc comments.
-/

/-- Tagged union for a resolved compiler version.
Modelled from the spec: §3 `VersionSpec` — `Remote(semantic_version)` or
`LocalPath(filesystem_path)` (the resolver lives in `zksolc_manager.rs`,
which is not under the visible source tree). -/
inductive VersionSpec where
  | Remote (v : String)
  | LocalPath (p : String)
deriving DecidableEq, Repr

/-- The zksolc compiler manager's data: its resolved version spec and the
computed target binary path.  Modelled from the spec: §3 `CompilerManager`
owns the resolved `VersionSpec` and the computed target binary path
(`zksolc_manager.rs` is not under the visible source tree). -/
structure ZkSolcManager where
  spec : VersionSpec
  compilerPath : String
deriving DecidableEq, Repr

/-- A local filesystem abstraction: maps a path to `none` (absent) or
`some isExecutable`. -/
structure FS where
  files : String → Option Bool

/-- The manager's `get_full_compiler_path`: returns the resolved binary
path (from `zksolc_manager.rs`: the computed target path; per spec §4.4 it
performs no filesystem check of its own). -/
def get_full_compiler_path (m : ZkSolcManager) : String :=
  m.compilerPath

/-- Modelled from the spec: §4.4 `exists()` — checks whether the target
binary is already present and executable at the computed path
(`zksolc_manager.rs` is not under the visible source tree). -/
def managerExists (m : ZkSolcManager) (fs : FS) : Bool :=
  match fs.files m.compilerPath with
  | some true => true
  | _ => false

/-- Whether `p` refers to an existing, executable file in `fs`. -/
def isExecutableFile (fs : FS) (p : String) : Bool :=
  match fs.files p with
  | some true => true
  | _ => false

/-- Modelled from the spec: §4.3/§4.4 `download()` — for a `Remote` spec,
fetches the binary, writes it atomically at the target path and marks it
executable; for a `LocalPath` spec it is a no-op returning success
(`zksolc_manager.rs` is not under the visible source tree). -/
def managerDownload (m : ZkSolcManager) (fs : FS) : FS :=
  match m.spec with
  | VersionSpec.Remote _ => ⟨fun p => if p = m.compilerPath then some true else fs.files p⟩
  | VersionSpec.LocalPath _ => fs

/-- The options handed to `ZkSolc::new`, mirroring the `ZkSolcOpts` struct
literal built in `ZkBuildArgs::run` (zk_build.rs lines 90–98); the `project`
and `config` references carry no data relevant to this development. -/
structure ZkSolcOpts where
  compiler_path : String
  is_system : Bool
  project : Unit
  config : Unit
  contract_name : String
deriving DecidableEq, Repr

/-- The parsed command-line arguments, mirroring the `ZkBuildArgs` struct of
zk_build.rs (the flattened `CoreBuildArgs` carries no data relevant to this
development). -/
structure ZkBuildArgs where
  contract_name : String
  use_zksolc : Option String
  is_system : Bool
  args : Unit
deriving DecidableEq, Repr

/-- Clap's parsing of the zk-build arguments, mirroring the `#[clap(...)]`
declarations of zk_build.rs: `use_zksolc` is declared with
`default_value = Some("v1.3.9")`, so parsing always produces `some` —
either the user-supplied value or the default. -/
def parseArgs (userVersion : Option String) (contract : String) (isSystem : Bool) :
    ZkBuildArgs :=
  { contract_name := contract
    use_zksolc := some (userVersion.getD "v1.3.9")
    is_system := isSystem
    args := () }

/-- Stderr text of zk_build.rs line 116: `"Error building zksolc_manager: {}"`. -/
def msgBuildManager (e : String) : String :=
  "Error building zksolc_manager: " ++ e

/-- Stderr text of zk_build.rs line 72: `"Failed to setup compilers directory: {}"`. -/
def msgSetup (e : String) : String :=
  "Failed to setup compilers directory: " ++ e

/-- Stderr text of zk_build.rs line 82: `"Failed to download the file: {}"`. -/
def msgDownload (e : String) : String :=
  "Failed to download the file: " ++ e

/-- Stderr text of zk_build.rs line 104: `"Failed to parse json input for zksolc compiler: {}"`. -/
def msgParse (e : String) : String :=
  "Failed to parse json input for zksolc compiler: " ++ e

/-- Stderr text of zk_build.rs line 109: `"Failed to compile smart contracts with zksolc: {}"`. -/
def msgCompile (e : String) : String :=
  "Failed to compile smart contracts with zksolc: " ++ e

/-- Observable events of one `run` execution: collaborator calls in the
order the source makes them, plus stdout (`out`) and stderr (`errOut`)
lines. -/
inductive Event where
  | loadConfig
  | loadProject
  | buildManager
  | checkSetup
  | existsCheck (present : Bool)
  | download (ok : Bool)
  | getPath
  | parseJson (opts : ZkSolcOpts)
  | compile
  | out (s : String)
  | errOut (s : String)
deriving DecidableEq, Repr

instance {ε α : Type} [DecidableEq ε] [DecidableEq α] : DecidableEq (Except ε α) :=
  fun x y =>
    match x, y with
    | Except.ok a, Except.ok b =>
        if h : a = b then isTrue (by rw [h])
        else isFalse (by intro he; cases he; exact h rfl)
    | Except.ok _, Except.error _ => isFalse (by intro he; cases he)
    | Except.error _, Except.ok _ => isFalse (by intro he; cases he)
    | Except.error a, Except.error b =>
        if h : a = b then isTrue (by rw [h])
        else isFalse (by intro he; cases he; exact h rfl)

/-- How one `run` execution ends: a value returned from the function
(`eyre::Result<String>`), a `process::exit(code)`, or a panic (from
`Option::unwrap` on `None`). -/
inductive Outcome where
  | returned (r : Except String String)
  | exited (code : Nat)
  | panicked
deriving DecidableEq, Repr

/-- Oracle for the collaborator calls made by `ZkBuildArgs::run`: the answer
each external call would give in this execution. -/
structure Env where
  loadConfig : Except String Unit
  loadProject : Except String Unit
  buildManager : Except String ZkSolcManager
  checkSetup : Except String Unit
  binExists : Bool
  downloadRes : Except String Unit
  parseJsonRes : Except String Unit
  compileRes : Except String Unit

/-- Shallow embedding of `ZkBuildArgs::run` (zk_build.rs lines 57–120),
branch for branch:
`try_load_config_emit_warnings()?` and `config.project()?` propagate errors
with `?`; `self.use_zksolc.unwrap()` panics on `None`;
`ZkSolcManagerBuilder::build` failure prints to stderr and falls through to
the final `Ok("".to_owned())`; `check_setup_compilers_dir`, `download`,
`parse_json_input` and `compile` failures print to stderr and
`process::exit(1)`; `exists()` guards the download; the `ZkSolcOpts` literal
(calling `get_full_compiler_path`) is built after the acquisition block and
before `parse_json_input`. -/
def ZkBuildArgs.run (self : ZkBuildArgs) (env : Env) : List Event × Outcome :=
  match env.loadConfig with
  | Except.error e => ([Event.loadConfig], Outcome.returned (Except.error e))
  | Except.ok _ =>
    match env.loadProject with
    | Except.error e =>
        ([Event.loadConfig, Event.loadProject], Outcome.returned (Except.error e))
    | Except.ok _ =>
      match self.use_zksolc with
      | none => ([Event.loadConfig, Event.loadProject], Outcome.panicked)
      | some _version =>
        match env.buildManager with
        | Except.error e =>
            ([Event.loadConfig, Event.loadProject, Event.buildManager,
              Event.errOut (msgBuildManager e)],
             Outcome.returned (Except.ok ""))
        | Except.ok mgr =>
          match env.checkSetup with
          | Except.error e =>
              ([Event.loadConfig, Event.loadProject, Event.buildManager,
                Event.checkSetup, Event.errOut (msgSetup e)],
               Outcome.exited 1)
          | Except.ok _ =>
            let acquired : List Event × Option String :=
              if env.binExists then
                ([Event.existsCheck true], none)
              else
                match env.downloadRes with
                | Except.ok _ =>
                    ([Event.existsCheck false, Event.out "Downloading zksolc compiler",
                      Event.download true], none)
                | Except.error e =>
                    ([Event.existsCheck false, Event.out "Downloading zksolc compiler",
                      Event.download false], some e)
            match acquired with
            | (t, some e) =>
                ([Event.loadConfig, Event.loadProject, Event.buildManager,
                  Event.checkSetup] ++ t ++ [Event.errOut (msgDownload e)],
                 Outcome.exited 1)
            | (t, none) =>
              let opts : ZkSolcOpts :=
                { compiler_path := get_full_compiler_path mgr
                  is_system := self.is_system
                  project := ()
                  config := ()
                  contract_name := self.contract_name }
              let base :=
                [Event.loadConfig, Event.loadProject, Event.buildManager,
                 Event.checkSetup] ++ t ++
                [Event.out "Compiling smart contracts...", Event.getPath]
              match env.parseJsonRes with
              | Except.error e =>
                  (base ++ [Event.parseJson opts, Event.errOut (msgParse e)],
                   Outcome.exited 1)
              | Except.ok _ =>
                match env.compileRes with
                | Except.ok _ =>
                    (base ++ [Event.parseJson opts, Event.compile,
                      Event.out "Compiled Successfully"],
                     Outcome.returned (Except.ok ""))
                | Except.error e =>
                    (base ++ [Event.parseJson opts, Event.compile,
                      Event.errOut (msgCompile e)],
                     Outcome.exited 1)

/-- Returns `true` iff the event is an `Event.download` (a download was
attempted, successful or not). -/
def isDownloadEvent : Event → Bool
  | Event.download _ => true
  | _ => false

/-- Whether the trace contains a download attempt. -/
def downloadAttempted (t : List Event) : Bool :=
  t.any isDownloadEvent

/-- Returns `true` iff an existence check or a download occurs strictly before the
first `checkSetup` event (or with no `checkSetup` event at all); `false`
means every existence check and every download is preceded by
`check_setup_compilers_dir`. -/
def acquisitionBeforeSetup : List Event → Bool
  | [] => false
  | Event.checkSetup :: _ => false
  | Event.existsCheck _ :: _ => true
  | Event.download _ :: _ => true
  | _ :: rest => acquisitionBeforeSetup rest

/-- Returns `true` iff `getPath` (a `get_full_compiler_path` call) occurs before any
`existsCheck true` or successful `download` event; `false` means every
`get_full_compiler_path` call happens only after the binary was observed
present or successfully downloaded. -/
def getPathBeforeAcquired : List Event → Bool
  | [] => false
  | Event.existsCheck true :: _ => false
  | Event.download true :: _ => false
  | Event.getPath :: _ => true
  | _ :: rest => getPathBeforeAcquired rest

/-- Splits a character list at every dot, keeping empty components. -/
def splitDots : List Char → List (List Char)
  | [] => [[]]
  | c :: rest =>
      let r := splitDots rest
      if c = '.' then [] :: r
      else
        match r with
        | [] => [[c]]
        | h :: t => (c :: h) :: t

/-- Modelled from the spec: §3/§4.1 — a bare semantic version `x.y.z`
(three nonempty all-digit components separated by dots), over characters. -/
def isBareSemverChars (l : List Char) : Bool :=
  match splitDots l with
  | [a, b, c] =>
      !a.isEmpty && a.all Char.isDigit &&
      !b.isEmpty && b.all Char.isDigit &&
      !c.isEmpty && c.all Char.isDigit
  | _ => false

/-- Modelled from the spec: §3/§4.1 — a bare semantic version `x.y.z`. -/
def isBareSemver (s : String) : Bool :=
  isBareSemverChars s.data

/-- Modelled from the spec: §3/§4.1 — a prefixed semantic version
`solc:x.y.z`. -/
def isSolcSemver (s : String) : Bool :=
  match s.data with
  | 's' :: 'o' :: 'l' :: 'c' :: ':' :: rest => isBareSemverChars rest
  | _ => false

/-- Modelled from the spec: §4.1's permissive policy — any nonempty string
that is not a semantic version is treated as a `LocalPath`; only the empty
string is unparseable as either form. -/
def isPathForm (s : String) : Bool :=
  !s.data.isEmpty

/-- Modelled from the spec: §4.1/§6 — the three accepted textual forms of a
version string: bare semver, `solc:`-prefixed semver, or a filesystem
path. -/
def isAcceptedVersionForm (s : String) : Bool :=
  isBareSemver s || isSolcSemver s || isPathForm s

/-- The project model handed to the request builder: the set of contract
source files under the project source root. -/
structure Project where
  sources : List String
deriving DecidableEq, Repr

/-- Settings block of a compilation request. -/
structure RequestSettings where
  is_system : Bool
deriving DecidableEq, Repr

/-- A compilation request for the external compiler. -/
structure CompilationRequest where
  contract_name : String
  settings : RequestSettings
deriving DecidableEq, Repr

/-- Modelled from the spec: §4.5 `build_request` (the body of
`ZkSolc::parse_json_input` is not under the visible source tree) — resolves
the named contract within the project's source root, failing with
`ContractNotFound` when absent, and threads the `is_system` mode flag
faithfully into the request's settings block. -/
def build_request (opts : ZkSolcOpts) (project : Project) :
    Except String CompilationRequest :=
  if opts.contract_name ∈ project.sources then
    Except.ok
      { contract_name := opts.contract_name
        settings := { is_system := opts.is_system } }
  else
    Except.error "ContractNotFound"

/-- A remote-version manager fixture: resolved spec `Remote "1.3.9"` with its
deterministic cache path. -/
def mgr0 : ZkSolcManager :=
  { spec := VersionSpec.Remote "1.3.9"
    compilerPath := "/home/user/.zksync/zksolc-1.3.9" }

/-- Arguments of a default invocation: no version flag supplied, contract
`Contract.sol`, system mode off. -/
def argsEx : ZkBuildArgs := parseArgs none "Contract.sol" false

/-- An empty filesystem: no file present at any path. -/
def fs0 : FS := ⟨fun _ => none⟩

/-- Environment of a fully successful run with the binary already cached. -/
def envAllOk : Env :=
  { loadConfig := Except.ok (), loadProject := Except.ok ()
    buildManager := Except.ok mgr0, checkSetup := Except.ok ()
    binExists := true, downloadRes := Except.ok ()
    parseJsonRes := Except.ok (), compileRes := Except.ok () }

/-- Environment of a successful run in which the binary was absent and had
to be downloaded. -/
def envDownloadOk : Env :=
  { loadConfig := Except.ok (), loadProject := Except.ok ()
    buildManager := Except.ok mgr0, checkSetup := Except.ok ()
    binExists := false, downloadRes := Except.ok ()
    parseJsonRes := Except.ok (), compileRes := Except.ok () }

/-- Environment in which constructing the zksolc manager fails. -/
def envBuildFail : Env :=
  { loadConfig := Except.ok (), loadProject := Except.ok ()
    buildManager := Except.error "unknown version", checkSetup := Except.ok ()
    binExists := false, downloadRes := Except.ok ()
    parseJsonRes := Except.ok (), compileRes := Except.ok () }

/-- Environment in which loading the configuration fails. -/
def envConfigFail : Env :=
  { loadConfig := Except.error "config malformed", loadProject := Except.ok ()
    buildManager := Except.ok mgr0, checkSetup := Except.ok ()
    binExists := true, downloadRes := Except.ok ()
    parseJsonRes := Except.ok (), compileRes := Except.ok () }

/-- Environment in which building the compiler's JSON input fails. -/
def envParseFail : Env :=
  { loadConfig := Except.ok (), loadProject := Except.ok ()
    buildManager := Except.ok mgr0, checkSetup := Except.ok ()
    binExists := true, downloadRes := Except.ok ()
    parseJsonRes := Except.error "bad json input", compileRes := Except.ok () }

/-- The `ZkSolcOpts` value the run of `argsEx` builds (cached binary path of
`mgr0`, system mode off, contract `Contract.sol`). -/
def opts0 : ZkSolcOpts :=
  { compiler_path := "/home/user/.zksync/zksolc-1.3.9"
    is_system := false
    project := ()
    config := ()
    contract_name := "Contract.sol" }

/-- Options naming a contract that the project does not contain. -/
def optsMissing : ZkSolcOpts :=
  { compiler_path := "/home/user/.zksync/zksolc-1.3.9"
    is_system := false
    project := ()
    config := ()
    contract_name := "Missing.sol" }

/-- A project whose source root contains exactly `Contract.sol`. -/
def proj0 : Project := ⟨["Contract.sol"]⟩

/-- The compilation request built from `opts0` against `proj0`. -/
def req0 : CompilationRequest :=
  { contract_name := "Contract.sol", settings := { is_system := false } }

/-- Helper: a successfully built compilation request carries the options'
`is_system` flag in its settings block. -/
theorem build_request_ok_is_system (o : ZkSolcOpts) (proj : Project)
    (req : CompilationRequest) (hb : build_request o proj = Except.ok req) :
    req.settings.is_system = o.is_system := by
  unfold build_request at hb
  split at hb
  · injection hb with h
    rw [← h]
  · cases hb

/-- Helper: two strings with distinct first eleven characters stay distinct
after appending arbitrary suffixes. -/
theorem append_ne_of_take11 (p q x y : String)
    (h : p.data.take 11 ≠ q.data.take 11)
    (hp : 11 ≤ p.data.length) (hq : 11 ≤ q.data.length) :
    p ++ x ≠ q ++ y := by
  intro he
  apply h
  have hd : (p ++ x).data = (q ++ y).data := congrArg String.data he
  rw [String.data_append, String.data_append] at hd
  have ht := congrArg (List.take 11) hd
  rw [List.take_append_eq_append_take, List.take_append_eq_append_take] at ht
  rw [Nat.sub_eq_zero_of_le hp, Nat.sub_eq_zero_of_le hq] at ht
  simpa using ht

/-- C1: when constructing the compiler manager fails, the run attempts no
directory setup, download, request construction, or compilation — the trace
is exactly config load, project load, manager construction and the stderr
line — but it returns `Ok ""`, a success value, instead of reporting a
terminal failure: the claim's "reports a terminal failure rather than
success" is contradicted by the code. -/
theorem manager_build_failure_aborts_but_returns_ok :
    ZkBuildArgs.run argsEx envBuildFail =
      ([Event.loadConfig, Event.loadProject, Event.buildManager,
        Event.errOut (msgBuildManager "unknown version")],
       Outcome.returned (Except.ok "")) := by
  rfl

/-- C2: whenever the environment reports the target compiler binary already
present at the computed cache path, no execution of the pipeline ever
attempts a download. -/
theorem download_not_invoked_when_binary_present (args : ZkBuildArgs) (env : Env)
    (h : env.binExists = true) :
    downloadAttempted (ZkBuildArgs.run args env).1 = false := by
  obtain ⟨cn, uz, sys, core⟩ := args
  obtain ⟨lc, lp, bm, cs, be, dl, pj, cp⟩ := env
  simp only at h
  subst h
  cases lc <;> cases lp <;> cases uz <;> cases bm <;> cases cs <;> cases pj <;>
    cases cp <;> simp [ZkBuildArgs.run, downloadAttempted, isDownloadEvent]

/-- Witness for C2: in the concrete cached-binary environment the binary is
present and the run's trace contains no download. -/
theorem download_not_invoked_when_binary_present_witness :
    envAllOk.binExists = true ∧
    downloadAttempted (ZkBuildArgs.run argsEx envAllOk).1 = false :=
  ⟨rfl, download_not_invoked_when_binary_present argsEx envAllOk rfl⟩

/-- C3: in every execution of the pipeline, no existence check and no
download ever occurs before `check_setup_compilers_dir`: every
`existsCheck` and `download` event in the trace is preceded by a
`checkSetup` event. -/
theorem check_setup_precedes_existence_and_download (args : ZkBuildArgs) (env : Env) :
    acquisitionBeforeSetup (ZkBuildArgs.run args env).1 = false := by
  obtain ⟨cn, uz, sys, core⟩ := args
  obtain ⟨lc, lp, bm, cs, be, dl, pj, cp⟩ := env
  cases lc <;> cases lp <;> cases uz <;> cases bm <;> cases cs <;> cases be <;>
    cases dl <;> cases pj <;> cases cp <;> simp [ZkBuildArgs.run, acquisitionBeforeSetup]

/-- C4: whenever building the compilation request fails — in particular
when the named contract is not found under the project source root, where
the builder fails with `ContractNotFound` — the external compiler is never
invoked: the trace contains no `compile` event, the run terminates with
`process::exit(1)`, and the stderr line carries that parse failure. -/
theorem parse_json_failure_stops_before_compile (args : ZkBuildArgs) (env : Env)
    (e : String) (opts o : ZkSolcOpts) (proj : Project)
    (hp : env.parseJsonRes = Except.error e)
    (hreach : Event.parseJson opts ∈ (ZkBuildArgs.run args env).1)
    (hn : o.contract_name ∉ proj.sources) :
    Event.compile ∉ (ZkBuildArgs.run args env).1 ∧
    (ZkBuildArgs.run args env).2 = Outcome.exited 1 ∧
    Event.errOut (msgParse e) ∈ (ZkBuildArgs.run args env).1 ∧
    build_request o proj = Except.error "ContractNotFound" := by
  have hcnf : build_request o proj = Except.error "ContractNotFound" := by
    simp [build_request, hn]
  have h3 : Event.compile ∉ (ZkBuildArgs.run args env).1 ∧
      (ZkBuildArgs.run args env).2 = Outcome.exited 1 ∧
      Event.errOut (msgParse e) ∈ (ZkBuildArgs.run args env).1 := by
    obtain ⟨cn, uz, sys, core⟩ := args
    obtain ⟨lc, lp, bm, cs, be, dl, pj, cp⟩ := env
    simp only at hp
    subst hp
    cases lc <;> cases lp <;> cases uz <;> cases bm <;> cases cs <;> cases be <;>
      cases dl <;> cases cp <;> simp_all [ZkBuildArgs.run]
  exact ⟨h3.1, h3.2.1, h3.2.2, hcnf⟩

/-- Witness for C4: in the concrete environment whose JSON-input
construction fails, the request construction was reached, the missing
contract is indeed absent from the project, and the theorem's conclusions
hold. -/
theorem parse_json_failure_stops_before_compile_witness :
    envParseFail.parseJsonRes = Except.error "bad json input" ∧
    Event.parseJson opts0 ∈ (ZkBuildArgs.run argsEx envParseFail).1 ∧
    optsMissing.contract_name ∉ proj0.sources ∧
    (Event.compile ∉ (ZkBuildArgs.run argsEx envParseFail).1 ∧
     (ZkBuildArgs.run argsEx envParseFail).2 = Outcome.exited 1 ∧
     Event.errOut (msgParse "bad json input") ∈ (ZkBuildArgs.run argsEx envParseFail).1 ∧
     build_request optsMissing proj0 = Except.error "ContractNotFound") :=
  ⟨rfl, by decide, by decide,
   parse_json_failure_stops_before_compile argsEx envParseFail "bad json input"
     opts0 optsMissing proj0 rfl (by decide) (by decide)⟩

/-- C5: for a remote (cache-managed) version spec, downloading places an
existing, executable file at the path `get_full_compiler_path` returns; a
positive `exists()` answer means exactly that such a file is already there;
and in every execution of the pipeline `get_full_compiler_path` is invoked
only after `exists()` returned true or `download()` succeeded. -/
theorem compiler_path_ready_after_acquisition (args : ZkBuildArgs) (env : Env)
    (m : ZkSolcManager) (fs : FS) (v : String)
    (hm : m.spec = VersionSpec.Remote v) :
    isExecutableFile (managerDownload m fs) (get_full_compiler_path m) = true ∧
    managerExists m fs = isExecutableFile fs (get_full_compiler_path m) ∧
    getPathBeforeAcquired (ZkBuildArgs.run args env).1 = false := by
  refine ⟨?_, rfl, ?_⟩
  · simp [managerDownload, hm, isExecutableFile, get_full_compiler_path]
  · obtain ⟨cn, uz, sys, core⟩ := args
    obtain ⟨lc, lp, bm, cs, be, dl, pj, cp⟩ := env
    cases lc <;> cases lp <;> cases uz <;> cases bm <;> cases cs <;> cases be <;>
      cases dl <;> cases pj <;> cases cp <;> simp [ZkBuildArgs.run, getPathBeforeAcquired]

/-- Witness for C5: the concrete remote manager `mgr0` on the empty
filesystem, with the concrete run that downloads the absent binary. -/
theorem compiler_path_ready_after_acquisition_witness :
    mgr0.spec = VersionSpec.Remote "1.3.9" ∧
    (isExecutableFile (managerDownload mgr0 fs0) (get_full_compiler_path mgr0) = true ∧
     managerExists mgr0 fs0 = isExecutableFile fs0 (get_full_compiler_path mgr0) ∧
     getPathBeforeAcquired (ZkBuildArgs.run argsEx envDownloadOk).1 = false) :=
  ⟨rfl, compiler_path_ready_after_acquisition argsEx envDownloadOk mgr0 fs0 "1.3.9" rfl⟩

/-- Counterexample to C6 as stated: supplying an empty version value makes
the run hand the empty string to the compiler manager, and the empty string
is none of the three accepted textual forms (bare semver, `solc:`-prefixed
semver, or filesystem path). -/
theorem empty_version_not_accepted_form :
    (parseArgs (some "") "Contract.sol" false).use_zksolc = some "" ∧
    isAcceptedVersionForm "" = false :=
  ⟨rfl, by decide⟩

/-- C6 (amended): for every invocation whose version value is nonempty —
including the omitted-flag case, where the built-in default `v1.3.9` is
used — the version string handed to the compiler manager is one of the
three accepted textual forms (under §4.1's permissive policy any nonempty
non-semver string counts as a filesystem path). -/
theorem version_handed_is_accepted_form (userVersion : Option String)
    (contract : String) (sys : Bool) (v : String)
    (h : (parseArgs userVersion contract sys).use_zksolc = some v)
    (hne : v ≠ "") :
    isAcceptedVersionForm v = true := by
  simp [parseArgs] at h
  subst h
  simp [isAcceptedVersionForm, isPathForm]
  right
  intro hd
  apply hne
  apply String.ext
  simpa using hd

/-- Witness for C6 (amended): the omitted-flag invocation hands the default
`v1.3.9`, which is nonempty and an accepted form. -/
theorem version_handed_is_accepted_form_witness :
    (parseArgs none "Contract.sol" false).use_zksolc = some "v1.3.9" ∧
    "v1.3.9" ≠ "" ∧
    isAcceptedVersionForm "v1.3.9" = true :=
  ⟨rfl, by decide,
   version_handed_is_accepted_form none "Contract.sol" false "v1.3.9" rfl (by decide)⟩

/-- C7: the `is_system` boolean supplied on the command line is passed
unchanged into the `ZkSolcOpts` the run hands to the request builder, and a
successfully built compilation request carries exactly that boolean in its
settings block. -/
theorem is_system_threaded_unchanged (args : ZkBuildArgs) (env : Env)
    (opts : ZkSolcOpts) (proj : Project) (req : CompilationRequest)
    (hreach : Event.parseJson opts ∈ (ZkBuildArgs.run args env).1)
    (hb : build_request opts proj = Except.ok req) :
    opts.is_system = args.is_system ∧ req.settings.is_system = args.is_system := by
  have h1 : opts.is_system = args.is_system := by
    obtain ⟨cn, uz, sys, core⟩ := args
    obtain ⟨lc, lp, bm, cs, be, dl, pj, cp⟩ := env
    cases lc <;> cases lp <;> cases uz <;> cases bm <;> cases cs <;> cases be <;>
      cases dl <;> cases pj <;> cases cp <;> simp_all [ZkBuildArgs.run]
  exact ⟨h1, by rw [build_request_ok_is_system opts proj req hb, h1]⟩

/-- Witness for C7: the concrete fully successful run hands `opts0` to the
request builder, which builds `req0`, and both carry the invocation's
`is_system = false`. -/
theorem is_system_threaded_unchanged_witness :
    Event.parseJson opts0 ∈ (ZkBuildArgs.run argsEx envAllOk).1 ∧
    build_request opts0 proj0 = Except.ok req0 ∧
    (opts0.is_system = argsEx.is_system ∧ req0.settings.is_system = argsEx.is_system) :=
  ⟨by decide, by decide,
   is_system_threaded_unchanged argsEx envAllOk opts0 proj0 req0 (by decide) (by decide)⟩

/-- C8: the four failure stages of the run — cache-directory setup,
download, JSON-input construction, and compiler-reported failure — emit
pairwise distinct stderr texts, whatever the underlying error payloads. -/
theorem failure_messages_pairwise_distinct (a b c d : String) :
    msgSetup a ≠ msgDownload b ∧ msgSetup a ≠ msgParse c ∧ msgSetup a ≠ msgCompile d ∧
    msgDownload b ≠ msgParse c ∧ msgDownload b ≠ msgCompile d ∧ msgParse c ≠ msgCompile d := by
  refine ⟨?_, ?_, ?_, ?_, ?_, ?_⟩ <;> (apply append_ne_of_take11 <;> decide)

/-- Counterexample to C9 as stated: when loading the configuration fails,
`run` returns a value — `Err("config malformed")`, propagated by `?` —
that is not `Ok("")`. -/
theorem config_error_returns_err_not_ok :
    (ZkBuildArgs.run argsEx envConfigFail).2 =
      Outcome.returned (Except.error "config malformed") ∧
    Except.error "config malformed" ≠ (Except.ok "" : Except String String) :=
  ⟨rfl, by decide⟩

/-- C9 (amended): once configuration and project loading have succeeded,
whenever `run` returns a value at all (rather than exiting the process or
panicking) that value is `Ok ""` — including the branch where constructing
the compiler manager fails — so past loading, the return value never
distinguishes a manager-construction failure from a successful
compilation. -/
theorem run_returns_ok_empty_after_loading (args : ZkBuildArgs) (env : Env)
    (r : Except String String)
    (hc : env.loadConfig = Except.ok ()) (hpj : env.loadProject = Except.ok ())
    (h : (ZkBuildArgs.run args env).2 = Outcome.returned r) :
    r = Except.ok "" := by
  obtain ⟨cn, uz, sys, core⟩ := args
  obtain ⟨lc, lp, bm, cs, be, dl, pj, cp⟩ := env
  simp only at hc hpj
  subst hc; subst hpj
  cases uz <;> cases bm <;> cases cs <;> cases be <;> cases dl <;> cases pj <;>
    cases cp <;> simp_all [ZkBuildArgs.run]

/-- Witness for C9 (amended): the manager-construction-failure environment
loads configuration and project successfully, returns a value, and that
value is `Ok ""`. -/
theorem run_returns_ok_empty_after_loading_witness :
    envBuildFail.loadConfig = Except.ok () ∧
    envBuildFail.loadProject = Except.ok () ∧
    (ZkBuildArgs.run argsEx envBuildFail).2 = Outcome.returned (Except.ok "") ∧
    (Except.ok "" : Except String String) = Except.ok "" :=
  ⟨rfl, rfl, rfl,
   run_returns_ok_empty_after_loading argsEx envBuildFail (Except.ok "") rfl rfl rfl⟩

/-- C10: for every way the command line can be parsed — the clap
declaration gives `use_zksolc` a default value, so parsing always yields
`Some` — the `unwrap` of the optional version field in `run` never panics. -/
theorem use_zksolc_unwrap_never_panics (userVersion : Option String)
    (contract : String) (sys : Bool) (env : Env) :
    (ZkBuildArgs.run (parseArgs userVersion contract sys) env).2 ≠ Outcome.panicked := by
  obtain ⟨lc, lp, bm, cs, be, dl, pj, cp⟩ := env
  cases lc <;> cases lp <;> cases bm <;> cases cs <;> cases be <;> cases dl <;>
    cases pj <;> cases cp <;> simp [ZkBuildArgs.run, parseArgs]
